import Mathlib

/-!
Verification development for the chrome-control server core
(`src/server/index.js`, `src/server/utils.js`).

Two components are embedded:

* the adaptive image-compression pipeline `compressImageToFit`
  (src/server/index.js lines 115-173), and
* the `BrowserManager` session controller (`ensureBrowser`, `closeBrowser`,
  the `targetcreated` interception handler; lines 175-263).

Modelling conventions:

* JS numbers that hold pixel dimensions, qualities and byte sizes are
  embedded as `Nat`.  `Math.floor(q * 0.8)` on an integer `q ≤ 100` equals
  `q * 4 / 5` (Nat division), and `Math.floor(w * 0.9)` equals `w * 9 / 10`;
  the float literals 0.8 and 0.9 are slightly above the exact rationals, so
  the float product never crosses an integer boundary downward.
  `Math.round(a / b)` for nonnegative ints is `(2 * a + b) / (2 * b)`.
* the `sharp` encoders are an external capability: an encode oracle `Enc`
  maps parameters to the byte size of the encoded buffer.  A returned
  buffer is identified by the parameters it was encoded with
  (`encQuality`, `encWidth`, `encHeight`).
* the puppeteer driver is an external capability `World` (connectivity,
  page lists, executable discovery, launch results); driver calls
  performed by the manager are recorded in a trace of `Action`s.
-/

namespace ChromeControl

/-- Output format of a screenshot (the `format` parameter, `png` or `jpeg`). -/
inductive ImgFormat where
  | jpeg
  | png
deriving DecidableEq, Repr

/-- Encode oracle: byte sizes produced by the external `sharp` encoders.
`jpegSize q w h` is the length of `sharp(img).resize(w,h).jpeg({quality: q})`;
`pngSize w h` is the length of
`sharp(img).resize(w,h).png({compressionLevel: 9})` — the png encoder takes
no quality parameter, exactly as in the source. -/
structure Enc where
  jpegSize : Nat → Nat → Nat → Nat
  pngSize : Nat → Nat → Nat

/-- One encode step of the loop body (index.js lines 143-147): jpeg encodes
with the current quality, png encodes without any quality input. -/
def encodeSize (enc : Enc) (fmt : ImgFormat) (q w h : Nat) : Nat :=
  match fmt with
  | .jpeg => enc.jpegSize q w h
  | .png => enc.pngSize w h

/-- `Math.max(10, Math.floor(currentQuality * 0.8))` (index.js line 154). -/
def jpegDecay (q : Nat) : Nat := max 10 (q * 4 / 5)

/-- `Math.floor(dim * 0.9)` (index.js lines 157-158). -/
def shrink (x : Nat) : Nat := x * 9 / 10

/-- JS `Math.round(num / den)` for nonnegative integers `num, den`
(round half up): `⌊num/den + 1/2⌋ = (2*num + den) / (2*den)`. -/
def jsRound2 (num den : Nat) : Nat := (2 * num + den) / (2 * den)

/-- The pre-loop dimension clamp (index.js lines 124-135).  The aspect
ratio is the ratio of the ORIGINAL width and height; the second branch
tests the height produced by the first branch and overwrites the width. -/
def clampDims (w h maxW maxH : Nat) : Nat × Nat :=
  if maxW < w ∨ maxH < h then
    if maxH < (if maxW < w then jsRound2 (maxW * h) w else h) then
      (jsRound2 (maxH * w) h, maxH)
    else ((if maxW < w then maxW else w), (if maxW < w then jsRound2 (maxW * h) w else h))
  else (w, h)

/-- Result record of `compressImageToFit` (index.js lines 165-172) together
with the identity of the returned buffer.  `size`, `width`, `height`,
`finalQuality` are the reported fields; `encQuality`, `encWidth`, `encHeight`
are the parameters the returned buffer was actually encoded with
(`size` is the buffer's byte length, as in the source where
`size: compressedBuffer.length`).  `iterations` is the final value of the
loop counter. -/
structure CompressResult where
  size : Nat
  width : Nat
  height : Nat
  finalQuality : Nat
  encQuality : Nat
  encWidth : Nat
  encHeight : Nat
  iterations : Nat
deriving DecidableEq, Repr

/-- The `while (iterations < maxIterations)` loop of `compressImageToFit`
(index.js lines 142-163), as fuel recursion: `fuel = maxIterations - iterations`.
The accumulator `(ls, lq, lw, lh)` carries the byte size and encode
parameters of the buffer produced by the previous round (`compressedBuffer`);
when the fuel runs out the loop exits with that buffer while the current
quality/width/height variables keep any decay applied after its encode. -/
def loopGo (enc : Enc) (fmt : ImgFormat) (maxSize : Nat) :
    Nat → Nat → Nat → Nat → Nat → Nat × Nat × Nat × Nat → CompressResult
  | 0, q, w, h, iters, (ls, lq, lw, lh) =>
      { size := ls, width := w, height := h, finalQuality := q,
        encQuality := lq, encWidth := lw, encHeight := lh, iterations := iters }
  | fuel + 1, q, w, h, iters, _ =>
      let s := encodeSize enc fmt q w h
      if s ≤ maxSize ∨ q ≤ 10 then
        { size := s, width := w, height := h, finalQuality := q,
          encQuality := q, encWidth := w, encHeight := h, iterations := iters }
      else
        match fmt with
        | .jpeg => loopGo enc fmt maxSize fuel (jpegDecay q) w h (iters + 1) (s, q, w, h)
        | .png => loopGo enc fmt maxSize fuel q (shrink w) (shrink h) (iters + 1) (s, q, w, h)

/-- `const maxIterations = 10` (index.js line 140). -/
def maxIterations : Nat := 10

/-- `compressImageToFit(base64Data, format, quality, maxWidth, maxHeight,
maxSizeBytes = 950000)` (index.js lines 115-173).  The input bitmap is
represented by its raw dimensions `w × h` plus the encode oracle; the
dimension clamp runs once, before the loop. -/
def compressImageToFit (enc : Enc) (fmt : ImgFormat) (quality w h maxW maxH : Nat)
    (maxSizeBytes : Nat := 950000) : CompressResult :=
  let c := clampDims w h maxW maxH
  loopGo enc fmt maxSizeBytes maxIterations quality c.1 c.2 0 (0, 0, 0, 0)

/-- The `chrome_screenshot` handler's call site (index.js lines 881-887):
`compressImageToFit(screenshot, params.format, params.quality,
params.max_width, params.max_height)` — five arguments, so the
`maxSizeBytes` parameter takes its default. -/
def screenshotCompress (enc : Enc) (fmt : ImgFormat) (quality w h maxW maxH : Nat) :
    CompressResult :=
  compressImageToFit enc fmt quality w h maxW maxH

/-- Driver calls performed by the `BrowserManager`, recorded as a trace.
Browser and page handles are modelled as natural-number identifiers. -/
inductive Action where
  | findChrome
  | launch (path : String)
  | installTargetHandler (browser : Nat)
  | newPage (browser : Nat)
  | setViewport (page width height : Nat)
  | installOpenOverride (page : Nat)
  | gotoPage (page : Nat) (url : String)
  | closePage (page : Nat)
  | closeBrowser (browser : Nat)
deriving DecidableEq, Repr

/-- The external puppeteer/OS capability: what discovery, launching and the
existing handles would report during one `ensureBrowser` call.
`findChromeResult = none` models `findChrome` throwing (utils.js line 55);
`launchResult = none` models `puppeteer.launch` throwing. -/
structure World where
  findChromeResult : Option String
  launchResult : Option Nat
  isConnected : Nat → Bool
  isClosed : Nat → Bool
  pagesOf : Nat → List Nat
  freshPage : Nat

/-- The mutable fields of `BrowserManager` (index.js lines 176-180). -/
structure ManagerState where
  browser : Option Nat
  page : Option Nat
  chromePath : Option String
deriving DecidableEq, Repr

/-- The fresh `BrowserManager` (constructor, index.js lines 176-180). -/
def ManagerState.init : ManagerState := ⟨none, none, none⟩

/-- Errors that abort `ensureBrowser` (launch path):
`findChrome` found no executable, or `puppeteer.launch` failed. -/
inductive LaunchError where
  | chromeNotFound
  | launchFailed
deriving DecidableEq, Repr

/-- `this.browser = await puppeteer.launch({executablePath: path, ...})`
followed by installing the `targetcreated` handler (index.js lines 191-222).
On a launch failure the assignment does not happen; on success `this.page`
is left as it was (the source never clears it here). -/
def launchWith (w : World) (st : ManagerState) (tr : List Action) (path : String) :
    ManagerState × List Action × Except LaunchError Nat :=
  match w.launchResult with
  | none => (st, tr ++ [Action.launch path], .error .launchFailed)
  | some b =>
      ({ st with browser := some b },
       tr ++ [Action.launch path, Action.installTargetHandler b], .ok b)

/-- `await this.initialize()` then the launch (index.js lines 182-206):
`initialize` runs `findChrome` only when `this.chromePath` is still null,
and a throwing `findChrome` leaves `chromePath` unassigned. -/
def launchSeq (w : World) (st : ManagerState) :
    ManagerState × List Action × Except LaunchError Nat :=
  match st.chromePath with
  | some path => launchWith w st [] path
  | none =>
      match w.findChromeResult with
      | none => (st, [Action.findChrome], .error .chromeNotFound)
      | some path =>
          launchWith w { st with chromePath := some path } [Action.findChrome] path

/-- Page (re)acquisition (index.js lines 225-243): take the first page of
`browser.pages()` if any, else `browser.newPage()`; then `setViewport` and
the `evaluateOnNewDocument` window.open override are applied to it. -/
def reacquirePage (w : World) (st : ManagerState) (tr : List Action) (b width height : Nat) :
    ManagerState × List Action × Except LaunchError (Nat × Nat) :=
  let pr : Nat × List Action :=
    match w.pagesOf b with
    | [] => (w.freshPage, [Action.newPage b])
    | q :: _ => (q, [])
  ({ st with page := some pr.1 },
   tr ++ pr.2 ++ [Action.setViewport pr.1 width height, Action.installOpenOverride pr.1],
   .ok (b, pr.1))

/-- `BrowserManager.ensureBrowser(headless, width, height)` (index.js lines
188-246).  Phase 1: relaunch when there is no browser or it reports itself
disconnected.  Phase 2: reacquire the page when there is none or it reports
itself closed; otherwise keep it.  Returns the post-call state, the trace of
driver calls, and either `(browser, page)` or the propagated launch error. -/
def ensureBrowser (w : World) (st : ManagerState) (width height : Nat) :
    ManagerState × List Action × Except LaunchError (Nat × Nat) :=
  let p1 : ManagerState × List Action × Except LaunchError Nat :=
    match st.browser with
    | some b => if w.isConnected b then (st, [], .ok b) else launchSeq w st
    | none => launchSeq w st
  match p1 with
  | (st1, tr1, .error e) => (st1, tr1, .error e)
  | (st1, tr1, .ok b) =>
      match st1.page with
      | some p =>
          if w.isClosed p then reacquirePage w st1 tr1 b width height
          else (st1, tr1, .ok (b, p))
      | none => reacquirePage w st1 tr1 b width height

/-- `BrowserManager.closeBrowser()` (index.js lines 248-254): guarded by
`if (this.browser)`, so with no browser it performs no driver call and
leaves the state untouched. -/
def closeBrowser (st : ManagerState) : ManagerState × List Action :=
  match st.browser with
  | some b => ({ st with browser := none, page := none }, [Action.closeBrowser b])
  | none => (st, [])

/-- The `targetcreated` interception handler (index.js lines 209-222),
evaluated on one event.  Inputs: the target's type string, the page the
target resolved to (`none` models `target.page()` returning null), the
manager's current page, the new page's URL, and whether the
`this.page.goto(url)` call succeeds.  Output: the driver calls made and
`true` when the handler ran to completion (`false` when it aborted on a
rejected `goto` — there is no try/catch in the source). -/
def targetCreatedHandler (targetType : String) (newPage : Option Nat)
    (curPage : Option Nat) (url : String) (gotoSucceeds : Bool) :
    List Action × Bool :=
  if targetType = ("page" : String) then
    match newPage with
    | none => ([], true)
    | some np =>
        if some np = curPage then ([], true)
        else if url ≠ ("" : String) ∧ url ≠ ("about:blank" : String) then
          match curPage with
          | none => ([], false)
          | some cp =>
              if gotoSucceeds then
                ([Action.gotoPage cp url, Action.closePage np], true)
              else ([Action.gotoPage cp url], false)
        else ([Action.closePage np], true)
  else ([], true)

/-- Encode oracle returning the constant byte size `n` for every encode. -/
def constEnc (n : Nat) : Enc := ⟨fun _ _ _ => n, fun _ _ => n⟩

/-- Connected demo driver: browser 1 reports connected, no page reports
closed, every browser's page list is `[4]`, a launch yields browser 7. -/
def demoWorld : World :=
  { findChromeResult := some ("chrome"),
    launchResult := some 7,
    isConnected := fun b => b == 1,
    isClosed := fun _ => false,
    pagesOf := fun _ => [4],
    freshPage := 9 }

/-- Live demo manager state: browser 1 holding current page 4. -/
def demoState : ManagerState :=
  { browser := some 1, page := some 4, chromePath := some ("chrome") }

/-- Driver in which no chrome executable can be found. -/
def failWorld : World :=
  { findChromeResult := none,
    launchResult := none,
    isConnected := fun _ => false,
    isClosed := fun _ => false,
    pagesOf := fun _ => [],
    freshPage := 0 }

/-! ### Unfolding equations for the compression loop -/

lemma loopGo_zero (enc : Enc) (fmt : ImgFormat) (ms q w h iters ls lq lw lh : Nat) :
    loopGo enc fmt ms 0 q w h iters (ls, lq, lw, lh) =
      { size := ls, width := w, height := h, finalQuality := q,
        encQuality := lq, encWidth := lw, encHeight := lh, iterations := iters } := rfl

lemma loopGo_jpeg_step (enc : Enc) (ms fuel q w h iters : Nat)
    (acc : Nat × Nat × Nat × Nat) :
    loopGo enc .jpeg ms (fuel + 1) q w h iters acc =
      if encodeSize enc .jpeg q w h ≤ ms ∨ q ≤ 10 then
        { size := encodeSize enc .jpeg q w h, width := w, height := h, finalQuality := q,
          encQuality := q, encWidth := w, encHeight := h, iterations := iters }
      else
        loopGo enc .jpeg ms fuel (jpegDecay q) w h (iters + 1)
          (encodeSize enc .jpeg q w h, q, w, h) := rfl

lemma loopGo_png_step (enc : Enc) (ms fuel q w h iters : Nat)
    (acc : Nat × Nat × Nat × Nat) :
    loopGo enc .png ms (fuel + 1) q w h iters acc =
      if encodeSize enc .png q w h ≤ ms ∨ q ≤ 10 then
        { size := encodeSize enc .png q w h, width := w, height := h, finalQuality := q,
          encQuality := q, encWidth := w, encHeight := h, iterations := iters }
      else
        loopGo enc .png ms fuel q (shrink w) (shrink h) (iters + 1)
          (encodeSize enc .png q w h, q, w, h) := rfl

/-! ### Invariants of the jpeg (quality-decay) track -/

/-- Invariant established by the loop on the jpeg track, relative to the
iteration counter `iters` it starts from and the remaining fuel. -/
def JpegLoopInv (ms w h iters fuelTot q : Nat) (r : CompressResult) : Prop :=
  r.width = w ∧ r.height = h ∧ r.encWidth = w ∧ r.encHeight = h ∧
  iters ≤ r.iterations ∧ r.iterations ≤ iters + fuelTot ∧
  r.finalQuality = jpegDecay^[r.iterations - iters] q ∧
  (r.size ≤ ms ∨ r.finalQuality ≤ 10 ∨ r.iterations = iters + fuelTot)

lemma loopGo_jpeg_inv (enc : Enc) (ms w h : Nat) :
    ∀ (fuel q iters : Nat) (acc : Nat × Nat × Nat × Nat),
      JpegLoopInv ms w h iters (fuel + 1) q
        (loopGo enc .jpeg ms (fuel + 1) q w h iters acc) := by
  intro fuel
  induction fuel with
  | zero =>
      intro q iters acc
      rw [loopGo_jpeg_step]
      by_cases hc : encodeSize enc .jpeg q w h ≤ ms ∨ q ≤ 10
      · rw [if_pos hc]
        refine ⟨rfl, rfl, rfl, rfl, le_refl _, by dsimp only; omega, by simp, ?_⟩
        rcases hc with hc | hc
        · exact Or.inl hc
        · exact Or.inr (Or.inl hc)
      · rw [if_neg hc, loopGo_zero]
        refine ⟨rfl, rfl, rfl, rfl, by dsimp only; omega, by dsimp only; omega, ?_, Or.inr (Or.inr rfl)⟩
        simp
  | succ fuel ih =>
      intro q iters acc
      rw [loopGo_jpeg_step]
      by_cases hc : encodeSize enc .jpeg q w h ≤ ms ∨ q ≤ 10
      · rw [if_pos hc]
        refine ⟨rfl, rfl, rfl, rfl, le_refl _, by dsimp only; omega, by simp, ?_⟩
        rcases hc with hc | hc
        · exact Or.inl hc
        · exact Or.inr (Or.inl hc)
      · rw [if_neg hc]
        obtain ⟨h1, h2, h3, h4, h5, h6, h7, h8⟩ :=
          ih (jpegDecay q) (iters + 1) (encodeSize enc .jpeg q w h, q, w, h)
        refine ⟨h1, h2, h3, h4, by omega, by omega, ?_, ?_⟩
        · rw [h7]
          have hsub :
              (loopGo enc .jpeg ms (fuel + 1) (jpegDecay q) w h (iters + 1)
                (encodeSize enc .jpeg q w h, q, w, h)).iterations - iters =
              ((loopGo enc .jpeg ms (fuel + 1) (jpegDecay q) w h (iters + 1)
                (encodeSize enc .jpeg q w h, q, w, h)).iterations - (iters + 1)) + 1 := by
            omega
          rw [hsub, Function.iterate_succ_apply]
        · rcases h8 with h8 | h8 | h8
          · exact Or.inl h8
          · exact Or.inr (Or.inl h8)
          · exact Or.inr (Or.inr (by omega))

set_option maxRecDepth 4000 in
/-- For any starting quality at most 100 (the schema bound of the `quality`
parameter), ten decay rounds drive the quality down to the floor 10. -/
lemma jpegDecay_ten (q : Nat) (hq : q ≤ 100) : jpegDecay^[10] q ≤ 10 := by
  revert q
  decide

/-! ### Invariants of the png (dimension-shrink) track -/

/-- Invariant established by the loop on the png track when the requested
quality is above the floor (so the quality clause of the stop condition
never fires). -/
def PngLoopInv (ms w h iters fuelTot q : Nat) (r : CompressResult) : Prop :=
  r.finalQuality = q ∧ r.encQuality = q ∧
  iters ≤ r.iterations ∧ r.iterations ≤ iters + fuelTot ∧
  r.width = shrink^[r.iterations - iters] w ∧
  r.height = shrink^[r.iterations - iters] h ∧
  (r.size ≤ ms ∨ r.iterations = iters + fuelTot)

lemma loopGo_png_inv (enc : Enc) (ms : Nat) :
    ∀ (fuel q w h iters : Nat) (acc : Nat × Nat × Nat × Nat), 10 < q →
      PngLoopInv ms w h iters (fuel + 1) q
        (loopGo enc .png ms (fuel + 1) q w h iters acc) := by
  intro fuel
  induction fuel with
  | zero =>
      intro q w h iters acc hq
      rw [loopGo_png_step]
      by_cases hc : encodeSize enc .png q w h ≤ ms ∨ q ≤ 10
      · rw [if_pos hc]
        refine ⟨rfl, rfl, le_refl _, by dsimp only; omega, by simp, by simp, ?_⟩
        rcases hc with hc | hc
        · exact Or.inl hc
        · omega
      · rw [if_neg hc, loopGo_zero]
        refine ⟨rfl, rfl, by dsimp only; omega, by dsimp only; omega, by simp, by simp, Or.inr rfl⟩
  | succ fuel ih =>
      intro q w h iters acc hq
      rw [loopGo_png_step]
      by_cases hc : encodeSize enc .png q w h ≤ ms ∨ q ≤ 10
      · rw [if_pos hc]
        refine ⟨rfl, rfl, le_refl _, by dsimp only; omega, by simp, by simp, ?_⟩
        rcases hc with hc | hc
        · exact Or.inl hc
        · omega
      · rw [if_neg hc]
        obtain ⟨h1, h2, h3, h4, h5, h6, h7⟩ :=
          ih q (shrink w) (shrink h) (iters + 1)
            (encodeSize enc .png q w h, q, w, h) hq
        refine ⟨h1, h2, by omega, by omega, ?_, ?_, ?_⟩
        · rw [h5]
          have hsub :
              (loopGo enc .png ms (fuel + 1) q (shrink w) (shrink h) (iters + 1)
                (encodeSize enc .png q w h, q, w, h)).iterations - iters =
              ((loopGo enc .png ms (fuel + 1) q (shrink w) (shrink h) (iters + 1)
                (encodeSize enc .png q w h, q, w, h)).iterations - (iters + 1)) + 1 := by
            omega
          rw [hsub, Function.iterate_succ_apply]
        · rw [h6]
          have hsub :
              (loopGo enc .png ms (fuel + 1) q (shrink w) (shrink h) (iters + 1)
                (encodeSize enc .png q w h, q, w, h)).iterations - iters =
              ((loopGo enc .png ms (fuel + 1) q (shrink w) (shrink h) (iters + 1)
                (encodeSize enc .png q w h, q, w, h)).iterations - (iters + 1)) + 1 := by
            omega
          rw [hsub, Function.iterate_succ_apply]
        · rcases h7 with h7 | h7
          · exact Or.inl h7
          · exact Or.inr (by omega)

/-! ### Consistency of the result record with the returned buffer -/

/-- When the loop exits through its stop condition (strictly fewer
iterations than the fuel allows), the reported width/height/quality are
exactly the parameters of the final encode. -/
lemma loopGo_break_consistent (enc : Enc) (fmt : ImgFormat) (ms : Nat) :
    ∀ (fuel q w h iters : Nat) (acc : Nat × Nat × Nat × Nat),
      (loopGo enc fmt ms fuel q w h iters acc).iterations < iters + fuel →
      (loopGo enc fmt ms fuel q w h iters acc).width =
        (loopGo enc fmt ms fuel q w h iters acc).encWidth ∧
      (loopGo enc fmt ms fuel q w h iters acc).height =
        (loopGo enc fmt ms fuel q w h iters acc).encHeight ∧
      (loopGo enc fmt ms fuel q w h iters acc).finalQuality =
        (loopGo enc fmt ms fuel q w h iters acc).encQuality := by
  intro fuel
  induction fuel with
  | zero =>
      intro q w h iters acc hlt
      obtain ⟨ls, lq, lw, lh⟩ := acc
      rw [loopGo_zero] at hlt
      dsimp only at hlt
      omega
  | succ fuel ih =>
      intro q w h iters acc hlt
      cases fmt with
      | jpeg =>
          rw [loopGo_jpeg_step] at hlt ⊢
          by_cases hc : encodeSize enc .jpeg q w h ≤ ms ∨ q ≤ 10
          · rw [if_pos hc]
            exact ⟨rfl, rfl, rfl⟩
          · rw [if_neg hc] at hlt ⊢
            exact ih (jpegDecay q) w h (iters + 1)
              (encodeSize enc .jpeg q w h, q, w, h) (by omega)
      | png =>
          rw [loopGo_png_step] at hlt ⊢
          by_cases hc : encodeSize enc .png q w h ≤ ms ∨ q ≤ 10
          · rw [if_pos hc]
            exact ⟨rfl, rfl, rfl⟩
          · rw [if_neg hc] at hlt ⊢
            exact ih q (shrink w) (shrink h) (iters + 1)
              (encodeSize enc .png q w h, q, w, h) (by omega)

/-- The reported byte size is always the size of an encode at the recorded
encode parameters: the `size` field faithfully describes the returned buffer. -/
lemma loopGo_size_eq (enc : Enc) (fmt : ImgFormat) (ms : Nat) :
    ∀ (fuel q w h iters : Nat) (acc : Nat × Nat × Nat × Nat),
      (loopGo enc fmt ms (fuel + 1) q w h iters acc).size =
        encodeSize enc fmt (loopGo enc fmt ms (fuel + 1) q w h iters acc).encQuality
          (loopGo enc fmt ms (fuel + 1) q w h iters acc).encWidth
          (loopGo enc fmt ms (fuel + 1) q w h iters acc).encHeight := by
  intro fuel
  induction fuel with
  | zero =>
      intro q w h iters acc
      cases fmt with
      | jpeg =>
          rw [loopGo_jpeg_step]
          by_cases hc : encodeSize enc .jpeg q w h ≤ ms ∨ q ≤ 10
          · rw [if_pos hc]
          · rw [if_neg hc, loopGo_zero]
      | png =>
          rw [loopGo_png_step]
          by_cases hc : encodeSize enc .png q w h ≤ ms ∨ q ≤ 10
          · rw [if_pos hc]
          · rw [if_neg hc, loopGo_zero]
  | succ fuel ih =>
      intro q w h iters acc
      cases fmt with
      | jpeg =>
          rw [loopGo_jpeg_step]
          by_cases hc : encodeSize enc .jpeg q w h ≤ ms ∨ q ≤ 10
          · rw [if_pos hc]
          · rw [if_neg hc]
            exact ih (jpegDecay q) w h (iters + 1) (encodeSize enc .jpeg q w h, q, w, h)
      | png =>
          rw [loopGo_png_step]
          by_cases hc : encodeSize enc .png q w h ≤ ms ∨ q ≤ 10
          · rw [if_pos hc]
          · rw [if_neg hc]
            exact ih q (shrink w) (shrink h) (iters + 1) (encodeSize enc .png q w h, q, w, h)

/-! ### The dimension clamp keeps both bounds -/

/-- Whatever the input dimensions, the pre-loop clamp produces dimensions
inside the `maxW × maxH` box (up to the integer rounding of `Math.round`). -/
lemma clampDims_le (w h maxW maxH : Nat)
    (hw : 0 < w) (hh : 0 < h) (hmw : 0 < maxW) (hmh : 0 < maxH) :
    (clampDims w h maxW maxH).1 ≤ maxW ∧ (clampDims w h maxW maxH).2 ≤ maxH := by
  unfold clampDims
  by_cases hg : maxW < w ∨ maxH < h
  · rw [if_pos hg]
    by_cases hw1 : maxW < w
    · simp only [if_pos hw1]
      by_cases h2 : maxH < jsRound2 (maxW * h) w
      · rw [if_pos h2]
        refine ⟨?_, le_refl _⟩
        show jsRound2 (maxH * w) h ≤ maxW
        unfold jsRound2 at h2 ⊢
        have hd1 : 0 < 2 * w := by omega
        have hd2 : 0 < 2 * h := by omega
        have key : (maxH + 1) * (2 * w) ≤ 2 * (maxW * h) + w :=
          (Nat.le_div_iff_mul_le hd1).1 (Nat.succ_le_of_lt h2)
        have goal1 : 2 * (maxH * w) + h < (maxW + 1) * (2 * h) := by nlinarith [key, hh, hw]
        have := (Nat.div_lt_iff_lt_mul hd2).2 goal1
        omega
      · rw [if_neg h2]
        exact ⟨le_refl _, le_of_not_lt h2⟩
    · have hwle : w ≤ maxW := le_of_not_lt hw1
      have hhgt : maxH < h := hg.resolve_left hw1
      simp only [if_neg hw1]
      rw [if_pos hhgt]
      refine ⟨?_, le_refl _⟩
      show jsRound2 (maxH * w) h ≤ maxW
      unfold jsRound2
      have hd2 : 0 < 2 * h := by omega
      have hmul : (maxH + 1) * w ≤ h * maxW :=
        Nat.mul_le_mul (Nat.succ_le_of_lt hhgt) hwle
      have goal1 : 2 * (maxH * w) + h < (maxW + 1) * (2 * h) := by nlinarith [hmul, hw, hh]
      have := (Nat.div_lt_iff_lt_mul hd2).2 goal1
      omega
  · rw [if_neg hg]
    push_neg at hg
    exact ⟨hg.1, hg.2⟩

/-! ### Claim theorems: compression pipeline -/

/-- C2: for every lossy (jpeg) input bitmap whose initial encode exceeds the
byte ceiling, the loop multiplies the quality by 0.8 (floored) with a floor
of 10 each round (`finalQuality = jpegDecay^[iterations] q`), re-encodes at
unchanged dimensions (reported and actual encode dimensions stay the clamped
input dimensions), and stops within 10 iterations with either the encoded
size at or below the ceiling or the quality at or below 10.  The quality
bound `q ≤ 100` is the schema bound of the `quality` parameter. -/
theorem c2_jpeg_quality_decay (enc : Enc) (q w h maxW maxH ms : Nat)
    (hq : q ≤ 100)
    (_hbig : ms < encodeSize enc .jpeg q (clampDims w h maxW maxH).1
      (clampDims w h maxW maxH).2) :
    (compressImageToFit enc .jpeg q w h maxW maxH ms).width =
      (clampDims w h maxW maxH).1 ∧
    (compressImageToFit enc .jpeg q w h maxW maxH ms).height =
      (clampDims w h maxW maxH).2 ∧
    (compressImageToFit enc .jpeg q w h maxW maxH ms).encWidth =
      (clampDims w h maxW maxH).1 ∧
    (compressImageToFit enc .jpeg q w h maxW maxH ms).encHeight =
      (clampDims w h maxW maxH).2 ∧
    (compressImageToFit enc .jpeg q w h maxW maxH ms).iterations ≤ 10 ∧
    (compressImageToFit enc .jpeg q w h maxW maxH ms).finalQuality =
      jpegDecay^[(compressImageToFit enc .jpeg q w h maxW maxH ms).iterations] q ∧
    ((compressImageToFit enc .jpeg q w h maxW maxH ms).size ≤ ms ∨
     (compressImageToFit enc .jpeg q w h maxW maxH ms).finalQuality ≤ 10) := by
  have e : compressImageToFit enc .jpeg q w h maxW maxH ms =
      loopGo enc .jpeg ms (9 + 1) q (clampDims w h maxW maxH).1
        (clampDims w h maxW maxH).2 0 (0, 0, 0, 0) := rfl
  rw [e]
  obtain ⟨h1, h2, h3, h4, h5, h6, h7, h8⟩ :=
    loopGo_jpeg_inv enc ms (clampDims w h maxW maxH).1 (clampDims w h maxW maxH).2
      9 q 0 (0, 0, 0, 0)
  refine ⟨h1, h2, h3, h4, by omega, ?_, ?_⟩
  · rw [h7, Nat.sub_zero]
  · rcases h8 with h8 | h8 | h8
    · exact Or.inl h8
    · exact Or.inr h8
    · right
      rw [h7, h8]
      exact jpegDecay_ten q hq

/-- Witness for C2 at a concrete always-oversized encode oracle. -/
theorem c2_jpeg_quality_decay_witness :
    (compressImageToFit (constEnc 1) .jpeg 60 100 100 1280 1440 0).width =
      (clampDims 100 100 1280 1440).1 ∧
    (compressImageToFit (constEnc 1) .jpeg 60 100 100 1280 1440 0).height =
      (clampDims 100 100 1280 1440).2 ∧
    (compressImageToFit (constEnc 1) .jpeg 60 100 100 1280 1440 0).encWidth =
      (clampDims 100 100 1280 1440).1 ∧
    (compressImageToFit (constEnc 1) .jpeg 60 100 100 1280 1440 0).encHeight =
      (clampDims 100 100 1280 1440).2 ∧
    (compressImageToFit (constEnc 1) .jpeg 60 100 100 1280 1440 0).iterations ≤ 10 ∧
    (compressImageToFit (constEnc 1) .jpeg 60 100 100 1280 1440 0).finalQuality =
      jpegDecay^[(compressImageToFit (constEnc 1) .jpeg 60 100 100 1280 1440 0).iterations]
        60 ∧
    ((compressImageToFit (constEnc 1) .jpeg 60 100 100 1280 1440 0).size ≤ 0 ∨
     (compressImageToFit (constEnc 1) .jpeg 60 100 100 1280 1440 0).finalQuality ≤ 10) :=
  c2_jpeg_quality_decay (constEnc 1) 60 100 100 1280 1440 0 (by decide) (by decide)

/-- C3 (counterexample): quality DOES play a role in the lossless (png)
track.  With requested quality 5 (≤ the floor 10) and an always-oversized
encode, the loop stops after the very first encode — zero shrink iterations,
dimensions unchanged, size still above the ceiling — while the identical
input at quality 60 shrinks ten times down to width 32. -/
theorem c3_png_quality_counterexample :
    (compressImageToFit (constEnc 1) .png 5 100 100 1280 1440 0).iterations = 0 ∧
    (compressImageToFit (constEnc 1) .png 5 100 100 1280 1440 0).width = 100 ∧
    (compressImageToFit (constEnc 1) .png 5 100 100 1280 1440 0).height = 100 ∧
    0 < (compressImageToFit (constEnc 1) .png 5 100 100 1280 1440 0).size ∧
    (compressImageToFit (constEnc 1) .png 60 100 100 1280 1440 0).width = 32 ∧
    (compressImageToFit (constEnc 1) .png 60 100 100 1280 1440 0).iterations = 10 := by
  decide

/-- C3 (amended): for every lossless (png) input bitmap whose initial encode
exceeds the byte ceiling AND whose requested quality is above the floor 10,
the loop shrinks both dimensions by the factor 0.9 (floored) each iteration
and re-encodes, for up to 10 iterations; the quality value is never passed
to the png encoder, but it still gates the loop's stop condition (a
requested quality ≤ 10 stops the loop after the first encode, see the
counterexample). -/
theorem c3_png_dimension_shrink (enc : Enc) (q w h maxW maxH ms : Nat)
    (hq : 10 < q)
    (_hbig : ms < encodeSize enc .png q (clampDims w h maxW maxH).1
      (clampDims w h maxW maxH).2) :
    (compressImageToFit enc .png q w h maxW maxH ms).finalQuality = q ∧
    (compressImageToFit enc .png q w h maxW maxH ms).encQuality = q ∧
    (compressImageToFit enc .png q w h maxW maxH ms).iterations ≤ 10 ∧
    (compressImageToFit enc .png q w h maxW maxH ms).width =
      shrink^[(compressImageToFit enc .png q w h maxW maxH ms).iterations]
        (clampDims w h maxW maxH).1 ∧
    (compressImageToFit enc .png q w h maxW maxH ms).height =
      shrink^[(compressImageToFit enc .png q w h maxW maxH ms).iterations]
        (clampDims w h maxW maxH).2 ∧
    ((compressImageToFit enc .png q w h maxW maxH ms).size ≤ ms ∨
     (compressImageToFit enc .png q w h maxW maxH ms).iterations = 10) ∧
    (∀ q1 q2 a b, encodeSize enc .png q1 a b = encodeSize enc .png q2 a b) := by
  have e : compressImageToFit enc .png q w h maxW maxH ms =
      loopGo enc .png ms (9 + 1) q (clampDims w h maxW maxH).1
        (clampDims w h maxW maxH).2 0 (0, 0, 0, 0) := rfl
  rw [e]
  obtain ⟨h1, h2, h3, h4, h5, h6, h7⟩ :=
    loopGo_png_inv enc ms 9 q (clampDims w h maxW maxH).1 (clampDims w h maxW maxH).2
      0 (0, 0, 0, 0) hq
  refine ⟨h1, h2, by omega, ?_, ?_, ?_, fun _ _ _ _ => rfl⟩
  · rw [h5, Nat.sub_zero]
  · rw [h6, Nat.sub_zero]
  · rcases h7 with h7 | h7
    · exact Or.inl h7
    · exact Or.inr (by omega)

/-- Witness for the amended C3 at a concrete always-oversized encode oracle. -/
theorem c3_png_dimension_shrink_witness :
    (compressImageToFit (constEnc 1) .png 60 100 100 1280 1440 0).finalQuality = 60 ∧
    (compressImageToFit (constEnc 1) .png 60 100 100 1280 1440 0).encQuality = 60 ∧
    (compressImageToFit (constEnc 1) .png 60 100 100 1280 1440 0).iterations ≤ 10 ∧
    (compressImageToFit (constEnc 1) .png 60 100 100 1280 1440 0).width =
      shrink^[(compressImageToFit (constEnc 1) .png 60 100 100 1280 1440 0).iterations]
        (clampDims 100 100 1280 1440).1 ∧
    (compressImageToFit (constEnc 1) .png 60 100 100 1280 1440 0).height =
      shrink^[(compressImageToFit (constEnc 1) .png 60 100 100 1280 1440 0).iterations]
        (clampDims 100 100 1280 1440).2 ∧
    ((compressImageToFit (constEnc 1) .png 60 100 100 1280 1440 0).size ≤ 0 ∨
     (compressImageToFit (constEnc 1) .png 60 100 100 1280 1440 0).iterations = 10) ∧
    (∀ q1 q2 a b, encodeSize (constEnc 1) .png q1 a b = encodeSize (constEnc 1) .png q2 a b) :=
  c3_png_dimension_shrink (constEnc 1) 60 100 100 1280 1440 0 (by decide) (by decide)

/-- C4 (counterexample): when the loop stops because the iteration bound is
reached, the result record does NOT describe the returned bitmap.  With an
always-oversized encode at requested quality 100 the returned buffer was
encoded at quality 12, but the reported `finalQuality` is 10 (one further
decay step, applied after the last encode). -/
theorem c4_bound_exit_counterexample :
    (compressImageToFit (constEnc 1) .jpeg 100 100 100 1280 1440 0).iterations = 10 ∧
    (compressImageToFit (constEnc 1) .jpeg 100 100 100 1280 1440 0).encQuality = 12 ∧
    (compressImageToFit (constEnc 1) .jpeg 100 100 100 1280 1440 0).finalQuality = 10 ∧
    (compressImageToFit (constEnc 1) .jpeg 100 100 100 1280 1440 0).finalQuality ≠
      (compressImageToFit (constEnc 1) .jpeg 100 100 100 1280 1440 0).encQuality := by
  decide

/-- C4 (amended): the reported byte size always equals the byte size of an
encode at the recorded parameters of the returned buffer; and whenever the
loop exits through its stop condition (iterations < 10), the reported
width, height and finalQuality all equal the parameters at which the
returned buffer was encoded.  At an iteration-bound exit the reported
quality (jpeg) or dimensions (png) reflect one further decay step beyond
the returned buffer's encode (see the counterexample). -/
theorem c4_result_record_consistency (enc : Enc) (fmt : ImgFormat)
    (q w h maxW maxH ms : Nat) :
    (compressImageToFit enc fmt q w h maxW maxH ms).size =
      encodeSize enc fmt (compressImageToFit enc fmt q w h maxW maxH ms).encQuality
        (compressImageToFit enc fmt q w h maxW maxH ms).encWidth
        (compressImageToFit enc fmt q w h maxW maxH ms).encHeight ∧
    ((compressImageToFit enc fmt q w h maxW maxH ms).iterations < 10 →
      (compressImageToFit enc fmt q w h maxW maxH ms).width =
        (compressImageToFit enc fmt q w h maxW maxH ms).encWidth ∧
      (compressImageToFit enc fmt q w h maxW maxH ms).height =
        (compressImageToFit enc fmt q w h maxW maxH ms).encHeight ∧
      (compressImageToFit enc fmt q w h maxW maxH ms).finalQuality =
        (compressImageToFit enc fmt q w h maxW maxH ms).encQuality) := by
  have e : compressImageToFit enc fmt q w h maxW maxH ms =
      loopGo enc fmt ms (9 + 1) q (clampDims w h maxW maxH).1
        (clampDims w h maxW maxH).2 0 (0, 0, 0, 0) := rfl
  rw [e]
  refine ⟨loopGo_size_eq enc fmt ms 9 q _ _ 0 (0, 0, 0, 0), fun hlt => ?_⟩
  exact loopGo_break_consistent enc fmt ms (9 + 1) q _ _ 0 (0, 0, 0, 0) (by omega)

/-- Witness for the amended C4 at a concrete input whose first encode
already fits, so the loop breaks at iteration 0. -/
theorem c4_result_record_consistency_witness :
    (compressImageToFit (constEnc 1) .jpeg 60 50 50 1280 1440 950000).size =
      encodeSize (constEnc 1) .jpeg
        (compressImageToFit (constEnc 1) .jpeg 60 50 50 1280 1440 950000).encQuality
        (compressImageToFit (constEnc 1) .jpeg 60 50 50 1280 1440 950000).encWidth
        (compressImageToFit (constEnc 1) .jpeg 60 50 50 1280 1440 950000).encHeight ∧
    ((compressImageToFit (constEnc 1) .jpeg 60 50 50 1280 1440 950000).width =
        (compressImageToFit (constEnc 1) .jpeg 60 50 50 1280 1440 950000).encWidth ∧
      (compressImageToFit (constEnc 1) .jpeg 60 50 50 1280 1440 950000).height =
        (compressImageToFit (constEnc 1) .jpeg 60 50 50 1280 1440 950000).encHeight ∧
      (compressImageToFit (constEnc 1) .jpeg 60 50 50 1280 1440 950000).finalQuality =
        (compressImageToFit (constEnc 1) .jpeg 60 50 50 1280 1440 950000).encQuality) :=
  ⟨(c4_result_record_consistency (constEnc 1) .jpeg 60 50 50 1280 1440 950000).1,
   (c4_result_record_consistency (constEnc 1) .jpeg 60 50 50 1280 1440 950000).2
     (by decide)⟩

/-- C5: the pre-loop dimension clamp runs exactly once before the loop
(the whole pipeline is one clamp followed by the iterative loop), and for
every raw bitmap it yields dimensions satisfying both the width and height
bounds simultaneously; on 4000×2000 with box 1280×1440 it yields 1280×640. -/
theorem c5_dimension_clamp (w h maxW maxH : Nat)
    (hw : 0 < w) (hh : 0 < h) (hmw : 0 < maxW) (hmh : 0 < maxH) :
    (clampDims w h maxW maxH).1 ≤ maxW ∧
    (clampDims w h maxW maxH).2 ≤ maxH ∧
    clampDims 4000 2000 1280 1440 = (1280, 640) ∧
    (∀ enc fmt q ms, compressImageToFit enc fmt q w h maxW maxH ms =
      loopGo enc fmt ms maxIterations q (clampDims w h maxW maxH).1
        (clampDims w h maxW maxH).2 0 (0, 0, 0, 0)) := by
  obtain ⟨b1, b2⟩ := clampDims_le w h maxW maxH hw hh hmw hmh
  exact ⟨b1, b2, by decide, fun _ _ _ _ => rfl⟩

/-- Witness for C5 at the spec's concrete input 4000×2000 in a 1280×1440 box. -/
theorem c5_dimension_clamp_witness :
    (clampDims 4000 2000 1280 1440).1 ≤ 1280 ∧
    (clampDims 4000 2000 1280 1440).2 ≤ 1440 ∧
    clampDims 4000 2000 1280 1440 = (1280, 640) ∧
    (∀ enc fmt q ms, compressImageToFit enc fmt q 4000 2000 1280 1440 ms =
      loopGo enc fmt ms maxIterations q (clampDims 4000 2000 1280 1440).1
        (clampDims 4000 2000 1280 1440).2 0 (0, 0, 0, 0)) :=
  c5_dimension_clamp 4000 2000 1280 1440 (by decide) (by decide) (by decide) (by decide)

/-- C10: the `chrome_screenshot` handler calls `compressImageToFit` without
a `maxSizeBytes` argument, so every screenshot uses the default byte
ceiling 950000; at that ceiling a 950000-byte first encode stops the loop
immediately while a 950001-byte always-oversized encode drives the full
quality decay. -/
theorem c10_default_ceiling :
    (∀ enc fmt q w h maxW maxH,
      screenshotCompress enc fmt q w h maxW maxH =
        compressImageToFit enc fmt q w h maxW maxH 950000) ∧
    (screenshotCompress (constEnc 950000) .jpeg 60 100 100 1280 1440).iterations = 0 ∧
    (screenshotCompress (constEnc 950001) .jpeg 60 100 100 1280 1440).iterations = 8 ∧
    (screenshotCompress (constEnc 950001) .jpeg 60 100 100 1280 1440).finalQuality = 10 :=
  ⟨fun _ _ _ _ _ _ _ => rfl, by decide, by decide, by decide⟩

/-! ### Claim theorems: session controller -/

/-- On a state with no browser and no page, `ensureBrowser` takes the full
launch path: it launches with the cached executable path (or a freshly
discovered one) and then acquires a page, returning the new browser. -/
lemma ensureBrowser_fresh (w : World) (st : ManagerState) (width height : Nat)
    (path : String) (b : Nat)
    (hbr : st.browser = none) (hpg : st.page = none)
    (hf : w.findChromeResult = some path) (hl : w.launchResult = some b) :
    Action.launch (st.chromePath.getD path) ∈ (ensureBrowser w st width height).2.1 ∧
    ∃ p, (ensureBrowser w st width height).2.2 = .ok (b, p) := by
  rcases hcp : st.chromePath with _ | cp <;>
    rcases hpgs : w.pagesOf b with _ | ⟨q0, rest⟩ <;>
      simp [ensureBrowser, launchSeq, launchWith, reacquirePage,
        hbr, hpg, hf, hl, hcp, hpgs]

/-- C6: `ensureBrowser` is idempotent — when a live connected browser with
an open current page exists, it returns the pair unchanged with an empty
driver trace (no launch, no page creation), and a second call without an
intervening close returns the same page handle again. -/
theorem c6_ensure_browser_idempotent (w : World) (st : ManagerState)
    (b p width height : Nat)
    (hb : st.browser = some b) (hc : w.isConnected b = true)
    (hp : st.page = some p) (hcl : w.isClosed p = false) :
    ensureBrowser w st width height = (st, [], .ok (b, p)) ∧
    ensureBrowser w (ensureBrowser w st width height).1 width height =
      (st, [], .ok (b, p)) := by
  have h1 : ensureBrowser w st width height = (st, [], .ok (b, p)) := by
    unfold ensureBrowser
    rw [hb]
    simp [hc, hp, hcl]
  refine ⟨h1, ?_⟩
  rw [h1]
  exact h1

/-- Witness for C6 on a concrete connected world and live state. -/
theorem c6_ensure_browser_idempotent_witness :
    ensureBrowser demoWorld demoState 1280 720 = (demoState, [], .ok (1, 4)) ∧
    ensureBrowser demoWorld (ensureBrowser demoWorld demoState 1280 720).1 1280 720 =
      (demoState, [], .ok (1, 4)) :=
  c6_ensure_browser_idempotent demoWorld demoState 1 4 1280 720 rfl rfl rfl rfl

/-- C7: `closeBrowser` leaves no browser and no page behind, is a no-op on a
state without a browser (the `if (this.browser)` guard means it performs no
driver call and cannot fail on a null browser), and after it returns the
next `ensureBrowser` performs a launch (the trace of the next call contains
a launch action and its result is the freshly launched browser, not a
reused handle).  `hinv` is the reachable-state invariant that a manager
without a browser holds no page either. -/
theorem c7_close_browser_spec (st : ManagerState) (w : World)
    (width height : Nat) (path : String) (b : Nat)
    (hinv : st.browser = none → st.page = none)
    (hf : w.findChromeResult = some path) (hl : w.launchResult = some b) :
    (closeBrowser st).1.browser = none ∧
    (closeBrowser st).1.page = none ∧
    (st.browser = none → closeBrowser st = (st, [])) ∧
    Action.launch ((closeBrowser st).1.chromePath.getD path) ∈
      (ensureBrowser w (closeBrowser st).1 width height).2.1 ∧
    ∃ p, (ensureBrowser w (closeBrowser st).1 width height).2.2 = .ok (b, p) := by
  rcases hbr : st.browser with _ | b0
  · have e : closeBrowser st = (st, []) := by
      unfold closeBrowser
      rw [hbr]
    rw [e]
    obtain ⟨m1, m2⟩ := ensureBrowser_fresh w st width height path b hbr (hinv hbr) hf hl
    exact ⟨hbr, hinv hbr, fun _ => rfl, m1, m2⟩
  · have e : closeBrowser st = ({ st with browser := none, page := none },
        [Action.closeBrowser b0]) := by
      unfold closeBrowser
      rw [hbr]
    rw [e]
    obtain ⟨m1, m2⟩ := ensureBrowser_fresh w { st with browser := none, page := none }
      width height path b rfl rfl hf hl
    refine ⟨rfl, rfl, fun hc => ?_, m1, m2⟩
    exact Option.noConfusion hc


/-- Witness for C7 on a concrete live state and relaunch-capable world. -/
theorem c7_close_browser_spec_witness :
    (closeBrowser demoState).1.browser = none ∧
    (closeBrowser demoState).1.page = none ∧
    (demoState.browser = none → closeBrowser demoState = (demoState, [])) ∧
    Action.launch ((closeBrowser demoState).1.chromePath.getD ("chrome")) ∈
      (ensureBrowser demoWorld (closeBrowser demoState).1 1280 720).2.1 ∧
    ∃ p, (ensureBrowser demoWorld (closeBrowser demoState).1 1280 720).2.2 =
      .ok (7, p) :=
  c7_close_browser_spec demoState demoWorld 1280 720 ("chrome") 7
    (by intro hc; cases hc) rfl rfl

/-- C8: self-healing page reacquisition — when the browser is connected but
the current page is absent or reports itself closed, `ensureBrowser` keeps
the browser (no launch action in the trace) and produces the first page of
the browser's page list (or a freshly created page when the list is empty),
applying the viewport and the window.open override to it. -/
theorem c8_page_reacquisition (w : World) (st : ManagerState) (b width height : Nat)
    (hb : st.browser = some b) (hc : w.isConnected b = true)
    (hp : st.page = none ∨ ∃ p, st.page = some p ∧ w.isClosed p = true) :
    ensureBrowser w st width height =
      ({ st with page := some ((w.pagesOf b).headD w.freshPage) },
       (match w.pagesOf b with
        | [] => [Action.newPage b]
        | _ :: _ => ([] : List Action)) ++
        [Action.setViewport ((w.pagesOf b).headD w.freshPage) width height,
         Action.installOpenOverride ((w.pagesOf b).headD w.freshPage)],
       .ok (b, (w.pagesOf b).headD w.freshPage)) ∧
    ∀ path, Action.launch path ∉ (ensureBrowser w st width height).2.1 := by
  have h1 : ensureBrowser w st width height =
      ({ st with page := some ((w.pagesOf b).headD w.freshPage) },
       (match w.pagesOf b with
        | [] => [Action.newPage b]
        | _ :: _ => ([] : List Action)) ++
        [Action.setViewport ((w.pagesOf b).headD w.freshPage) width height,
         Action.installOpenOverride ((w.pagesOf b).headD w.freshPage)],
       .ok (b, (w.pagesOf b).headD w.freshPage)) := by
    rcases hp with hp | ⟨p, hp, hclosed⟩ <;>
      rcases hpgs : w.pagesOf b with _ | ⟨q0, rest⟩ <;>
        simp [ensureBrowser, reacquirePage, hb, hc, hp, hpgs] <;>
          simp [hclosed]
  refine ⟨h1, fun path => ?_⟩
  rw [h1]
  rcases hpgs : w.pagesOf b with _ | ⟨q0, rest⟩ <;> simp [hpgs]

/-- Witness for C8: the demo browser stays connected while the page is
gone, and the first existing page (4) is reacquired without a launch. -/
theorem c8_page_reacquisition_witness :
    ensureBrowser demoWorld { demoState with page := none } 1280 720 =
      ({ { demoState with page := none } with
          page := some ((demoWorld.pagesOf 1).headD demoWorld.freshPage) },
       (match demoWorld.pagesOf 1 with
        | [] => [Action.newPage 1]
        | _ :: _ => ([] : List Action)) ++
        [Action.setViewport ((demoWorld.pagesOf 1).headD demoWorld.freshPage) 1280 720,
         Action.installOpenOverride ((demoWorld.pagesOf 1).headD demoWorld.freshPage)],
       .ok (1, (demoWorld.pagesOf 1).headD demoWorld.freshPage)) ∧
    ∀ path, Action.launch path ∉
      (ensureBrowser demoWorld { demoState with page := none } 1280 720).2.1 :=
  c8_page_reacquisition demoWorld { demoState with page := none } 1 1280 720
    rfl rfl (Or.inl rfl)

/-- C9: a failed executable discovery aborts only the triggering call —
the state it leaves behind (unchanged, with `chromePath` still unset) makes
the next `ensureBrowser` against a recovered world rerun `findChrome` and
the launch, succeeding with the fresh browser: the failure is not cached. -/
theorem c9_launch_failure_not_cached (w1 w2 : World) (st : ManagerState)
    (width height : Nat) (path : String) (b : Nat)
    (hbr : st.browser = none) (hcp : st.chromePath = none)
    (h1 : w1.findChromeResult = none)
    (h2 : w2.findChromeResult = some path) (h3 : w2.launchResult = some b) :
    ensureBrowser w1 st width height =
      (st, [Action.findChrome], .error .chromeNotFound) ∧
    Action.findChrome ∈
      (ensureBrowser w2 (ensureBrowser w1 st width height).1 width height).2.1 ∧
    Action.launch path ∈
      (ensureBrowser w2 (ensureBrowser w1 st width height).1 width height).2.1 ∧
    ∃ p, (ensureBrowser w2 (ensureBrowser w1 st width height).1 width height).2.2 =
      .ok (b, p) := by
  have e1 : ensureBrowser w1 st width height =
      (st, [Action.findChrome], .error .chromeNotFound) := by
    simp [ensureBrowser, launchSeq, hbr, hcp, h1]
  refine ⟨e1, ?_⟩
  rw [e1]
  show Action.findChrome ∈ (ensureBrowser w2 st width height).2.1 ∧
    Action.launch path ∈ (ensureBrowser w2 st width height).2.1 ∧
    ∃ p, (ensureBrowser w2 st width height).2.2 = .ok (b, p)
  rcases hpage : st.page with _ | p
  · rcases hpgs : w2.pagesOf b with _ | ⟨q0, rest⟩ <;>
      simp [ensureBrowser, launchSeq, launchWith, reacquirePage,
        hbr, hcp, h2, h3, hpage, hpgs]
  · by_cases hclosed : w2.isClosed p = true
    · rcases hpgs : w2.pagesOf b with _ | ⟨q0, rest⟩ <;>
        simp [ensureBrowser, launchSeq, launchWith, reacquirePage,
          hbr, hcp, h2, h3, hpage, hpgs, hclosed]
    · simp [ensureBrowser, launchSeq, launchWith, reacquirePage,
        hbr, hcp, h2, h3, hpage, Bool.of_not_eq_true hclosed]

/-- Witness for C9: a fresh manager, a world without any chrome executable,
then a recovered world that finds one and launches browser 7. -/
theorem c9_launch_failure_not_cached_witness :
    ensureBrowser failWorld ManagerState.init 1280 720 =
      (ManagerState.init, [Action.findChrome], .error .chromeNotFound) ∧
    Action.findChrome ∈
      (ensureBrowser demoWorld
        (ensureBrowser failWorld ManagerState.init 1280 720).1 1280 720).2.1 ∧
    Action.launch ("chrome") ∈
      (ensureBrowser demoWorld
        (ensureBrowser failWorld ManagerState.init 1280 720).1 1280 720).2.1 ∧
    ∃ p, (ensureBrowser demoWorld
        (ensureBrowser failWorld ManagerState.init 1280 720).1 1280 720).2.2 =
      .ok (7, p) :=
  c9_launch_failure_not_cached failWorld demoWorld ManagerState.init 1280 720
    ("chrome") 7 rfl rfl rfl rfl rfl

/-- C1 (counterexample): the `targetcreated` handler does NOT close the new
context when the redirect fails.  On a page-type target resolving to page 2
with a non-blank URL, while the current page is 1 and the `goto` rejects,
the handler issues only the redirect attempt, aborts (no try/catch in the
source), and never closes page 2. -/
theorem c1_redirect_failure_counterexample :
    targetCreatedHandler ("page") (some 2) (some 1) ("https://a.example/x") false =
      ([Action.gotoPage 1 ("https://a.example/x")], false) ∧
    Action.closePage 2 ∉
      (targetCreatedHandler ("page") (some 2) (some 1) ("https://a.example/x") false).1 := by
  constructor
  · rfl
  · decide

/-- C1 (amended): for every intercepted new page carrying a non-blank URL
(with a current page present and distinct), the newly created context is
closed when the redirect navigation succeeds; when the redirect fails the
error propagates out of the handler and the new context is NOT closed —
cleanup does not proceed past a failed redirect. -/
theorem c1_interception_close_after_redirect (np cp : Nat) (url : String)
    (hne : np ≠ cp) (hu1 : url ≠ "") (hu2 : url ≠ "about:blank") :
    targetCreatedHandler ("page") (some np) (some cp) url true =
      ([Action.gotoPage cp url, Action.closePage np], true) ∧
    targetCreatedHandler ("page") (some np) (some cp) url false =
      ([Action.gotoPage cp url], false) ∧
    Action.closePage np ∉
      (targetCreatedHandler ("page") (some np) (some cp) url false).1 := by
  have hne' : ¬ (some np = (some cp : Option Nat)) := by
    intro hcontra
    exact hne (Option.some.inj hcontra)
  refine ⟨?_, ?_, ?_⟩ <;>
    simp [targetCreatedHandler, hne', hu1, hu2]

/-- Witness for the amended C1 at concrete pages and URL. -/
theorem c1_interception_close_after_redirect_witness :
    targetCreatedHandler ("page") (some 2) (some 1) ("https://b.example/y") true =
      ([Action.gotoPage 1 ("https://b.example/y"), Action.closePage 2], true) ∧
    targetCreatedHandler ("page") (some 2) (some 1) ("https://b.example/y") false =
      ([Action.gotoPage 1 ("https://b.example/y")], false) ∧
    Action.closePage 2 ∉
      (targetCreatedHandler ("page") (some 2) (some 1) ("https://b.example/y") false).1 :=
  c1_interception_close_after_redirect 2 1 ("https://b.example/y")
    (by decide) (by decide) (by decide)

end ChromeControl
